import Mathlib

/-!
Verification of the streaming audio-analysis pipeline
(`src/backend/audio_analyzer.py` and `src/backend/main.py`).

Shallow embedding conventions
=============================

* Audio samples and all measured quantities are rationals (`ℚ`).

* RMS values are represented throughout by their squares (the mean of the
  squared samples), because `sqrt` of a rational is irrational in general.
  Every use of an RMS value in the source is either a comparison against a
  nonnegative threshold or a sorted-percentile lookup, and the map
  `x ↦ sqrt x` is strictly monotone on nonnegatives, so each source
  comparison `rms OP t` is embedded as `rmsSq OP t^2` and the sorted order
  of stored RMS values coincides with the sorted order of their squares.
  Concretely: `0.03^2 = 9/10000`, `0.04^2 = 16/10000`, `2.5^2 = 25/4`,
  initial noise floor `0.01^2 = 1/10000`.

* The high-pass filter coefficient `alpha = RC/(RC+dt)` with
  `RC = 1/(2*pi*80)` and `dt = 1/16000` is irrational (it involves `pi`),
  so the filter takes `alpha` as an explicit parameter; theorems quantify
  over it.  The source value lies strictly between 0 and 1.

* The Praat/parselmouth feature extractor is an external collaborator
  (spec section 6).  Its four outputs plus the measured intensity are
  passed to `analyze` as an `Extracted` record, and the intensity
  measurement made during calibration is passed as an `Option ℚ`
  (`none` models the `except: pass` branch, i.e. the measurement raising).
  The inner helpers `_get_formants`/`_get_pitch`/`_get_intensity` already
  map their own failures to 0, so a plain rational models their result.

* Vowel-classification distances are likewise represented by their squares
  (`distSq` below is the radicand of the source's `np.sqrt`); the
  confidence `max(0, 1 - d/400)` is expressed in theorems through
  `Real.sqrt` applied to the stored squared distance.

* The websocket handler `websocket_audio` of `main.py` is embedded as a
  step function `processMessage` on an explicit session state.  A `none`
  result models an exception escaping the message loop (which ends the
  handler, closing the connection); `some (st, outs)` models one loop
  iteration that sent the messages `outs` and continues with state `st`.
  The sample rate is fixed at 16000 as in `main.py`.
-/

set_option maxRecDepth 40000

/-- Result record mirroring `AnalysisResult` of `audio_analyzer.py`.
`confidence_dsq` carries the squared nearest-vowel distance that determines
the source's `confidence = max(0, 1 - sqrt(dsq)/400)`; `none` stands for the
dataclass default `confidence = 0.0` (silent/unvoiced results and the
no-formant case, where the source returns confidence 0 directly). -/
structure AnalysisResult where
  f1 : ℚ
  f2 : ℚ
  f3 : ℚ
  pitch : ℚ
  intensity : ℚ
  is_voiced : Bool
  detected_vowel : Option String
  confidence_dsq : Option ℚ
deriving DecidableEq, Repr

/-- `AudioAnalyzer._silent_result`: the all-zero unvoiced result. -/
def silent_result : AnalysisResult :=
  { f1 := 0, f2 := 0, f3 := 0, pitch := 0, intensity := 0,
    is_voiced := false, detected_vowel := none, confidence_dsq := none }

/-- Mutable state of one `AudioAnalyzer` (the fields written by `analyze`,
`calibrate_noise_floor` and `reset`; the constructor constants are inlined).
`noise_floor_rmsSq` is the square of the source's `noise_floor_rms`, and
`calibration_samples` stores the squares of the per-frame RMS values. -/
structure AnalyzerState where
  last_f1 : ℚ
  last_f2 : ℚ
  last_f3 : ℚ
  last_pitch : ℚ
  noise_floor_rmsSq : ℚ
  noise_floor_intensity : ℚ
  is_calibrated : Bool
  calibration_samples : List ℚ
deriving DecidableEq, Repr

/-- Analyzer state produced by `AudioAnalyzer.__init__` (16000 Hz):
`noise_floor_rms = 0.01` (stored squared: `1/10000`),
`noise_floor_intensity = 30`, not calibrated, empty history,
all smoothing state 0. -/
def initAnalyzer : AnalyzerState :=
  { last_f1 := 0, last_f2 := 0, last_f3 := 0, last_pitch := 0,
    noise_floor_rmsSq := 1/10000, noise_floor_intensity := 30,
    is_calibrated := false, calibration_samples := [] }

/-- `AudioAnalyzer.reset`: restores exactly the constructor defaults of the
fields modelled in `AnalyzerState`, so it is the constant `initAnalyzer`. -/
def analyzerReset (_st : AnalyzerState) : AnalyzerState := initAnalyzer

/-- Outputs of the external Praat feature extractor for one frame
(`_get_formants`, `_get_pitch`, `_get_intensity`; failures are already
mapped to 0 inside those helpers). -/
structure Extracted where
  f1 : ℚ
  f2 : ℚ
  f3 : ℚ
  pitch : ℚ
  intensity : ℚ
deriving DecidableEq, Repr

/-- Mean of squared samples: the square of the source's
`rms = np.sqrt(np.mean(audio_data ** 2))`. -/
def meanSq (xs : List ℚ) : ℚ :=
  (xs.map (fun x => x ^ 2)).sum / (xs.length : ℚ)

/-- Recurrence of `AudioAnalyzer._high_pass_filter`:
`filtered[i] = alpha * (filtered[i-1] + x[i] - x[i-1])`, carrying the
previous output and previous input. -/
def highPassAux (alpha : ℚ) : ℚ → ℚ → List ℚ → List ℚ
  | _, _, [] => []
  | yprev, xprev, x :: rest =>
      alpha * (yprev + x - xprev) :: highPassAux alpha (alpha * (yprev + x - xprev)) x rest

/-- `AudioAnalyzer._high_pass_filter` with the coefficient `alpha` as a
parameter (the source computes `alpha = rc/(rc+dt)`, `rc = 1/(2*pi*80)`,
`dt = 1/16000`, an irrational number in `(0,1)`).  `filtered[0] = x[0]`;
inputs shorter than 2 samples are returned unchanged (a singleton is its
own first output, matching both readings). -/
def high_pass_filter (alpha : ℚ) : List ℚ → List ℚ
  | [] => []
  | x :: rest => x :: highPassAux alpha x x rest

/-- `AudioAnalyzer._smooth`: raw value first, previous value second. -/
def smooth (new_val old_val : ℚ) : ℚ :=
  if new_val = 0 then old_val * (1/2)
  else old_val * (3/10) + new_val * (7/10)

/-- The adaptive RMS threshold of `analyze`, squared:
calibrated: `max(0.03, noise_floor_rms * 2.5)` (squared:
`max(9/10000, noise_floor_rmsSq * 25/4)`); otherwise the fixed `0.04`
(squared `16/10000`). -/
def rmsThresholdSq (st : AnalyzerState) : ℚ :=
  if st.is_calibrated then max (9/10000) (st.noise_floor_rmsSq * (25/4))
  else 16/10000

/-- The adaptive intensity threshold of `analyze`:
calibrated: `max(40, noise_floor_intensity + 10)`; otherwise `45`. -/
def intensityThreshold (st : AnalyzerState) : ℚ :=
  if st.is_calibrated then max 40 (st.noise_floor_intensity + 10)
  else 45

/-- The `IPA_VOWELS` table in declaration order: symbol, F1, F2
(the `name` strings play no computational role and are omitted). -/
def IPA_VOWELS : List (String × ℚ × ℚ) :=
  [("i", 280, 2300), ("ɪ", 400, 2000), ("e", 400, 2100), ("ɛ", 550, 1900),
   ("æ", 700, 1700), ("a", 800, 1500), ("ɨ", 300, 1600), ("ə", 500, 1500),
   ("ɐ", 700, 1400), ("u", 300, 900), ("ʊ", 400, 1000), ("o", 450, 900),
   ("ɔ", 600, 1000), ("ɑ", 750, 1100)]

/-- Squared anisotropic distance of `_detect_vowel`:
`((f1 - targetF1) * 1.2)^2 + ((f2 - targetF2) * 0.8)^2`, the radicand of
the source's `np.sqrt`. -/
def distSq (f1 f2 : ℚ) (e : String × ℚ × ℚ) : ℚ :=
  ((f1 - e.2.1) * (12/10)) ^ 2 + ((f2 - e.2.2) * (8/10)) ^ 2

/-- The scan loop of `_detect_vowel`: the accumulator is
`(nearest, min_distanceSq)`, with `none` as the initial
`(None, float('inf'))` (any finite distance beats `inf`).  An entry
replaces the accumulator only when its distance is strictly smaller,
so the first entry of any tie wins. -/
def scanVowels (f1 f2 : ℚ) :
    List (String × ℚ × ℚ) → Option String × Option ℚ → Option String × Option ℚ
  | [], acc => acc
  | e :: rest, acc =>
      if (match acc.2 with
          | none => true
          | some m => decide (distSq f1 f2 e < m)) then
        scanVowels f1 f2 rest (some e.1, some (distSq f1 f2 e))
      else
        scanVowels f1 f2 rest acc

/-- `AudioAnalyzer._detect_vowel`, returning the nearest symbol and the
squared minimal distance (`none, none` is the source's `(None, 0)` branch
for a zero formant: no distance is computed and the confidence is 0). -/
def detect_vowel (f1 f2 : ℚ) : Option String × Option ℚ :=
  if f1 = 0 ∨ f2 = 0 then (none, none)
  else scanVowels f1 f2 IPA_VOWELS (none, none)

/-- Voiced branch of `analyze` (after the formant/pitch extraction):
if `_last_f1 > 0` all four quantities are smoothed against their stored
previous values, otherwise all four raw values are taken as-is; the state
is updated to the emitted values and the vowel is detected on the emitted
F1/F2. -/
def analyzeVoiced (st : AnalyzerState) (ext : Extracted) :
    AnalyzerState × AnalysisResult :=
  let f1 := if 0 < st.last_f1 then smooth ext.f1 st.last_f1 else ext.f1
  let f2 := if 0 < st.last_f1 then smooth ext.f2 st.last_f2 else ext.f2
  let f3 := if 0 < st.last_f1 then smooth ext.f3 st.last_f3 else ext.f3
  let pitch := if 0 < st.last_f1 then smooth ext.pitch st.last_pitch else ext.pitch
  ({ st with last_f1 := f1, last_f2 := f2, last_f3 := f3, last_pitch := pitch },
   { f1 := f1, f2 := f2, f3 := f3, pitch := pitch, intensity := ext.intensity,
     is_voiced := true, detected_vowel := (detect_vowel f1 f2).1,
     confidence_dsq := (detect_vowel f1 f2).2 })

/-- Unvoiced decay branch of `analyze`: `_last_f1 *= 0.8`, `_last_f2 *= 0.8`,
and the result reports the decayed values, `f3 = 0`, `pitch = 0`, the
measured intensity, not voiced. -/
def analyzeDecay (st : AnalyzerState) (ext : Extracted) :
    AnalyzerState × AnalysisResult :=
  ({ st with last_f1 := st.last_f1 * (8/10), last_f2 := st.last_f2 * (8/10) },
   { f1 := st.last_f1 * (8/10), f2 := st.last_f2 * (8/10), f3 := 0, pitch := 0,
     intensity := ext.intensity, is_voiced := false,
     detected_vowel := none, confidence_dsq := none })

/-- `AudioAnalyzer.analyze`.  Branches in source order: frames shorter than
256 samples are silent; the quick RMS check (`rms < rms_threshold`, here on
squares) is silent; then `is_voiced = intensity > intensity_threshold and
rms > rms_threshold` selects the voiced path or the decay path.  The
squared RMS of the filtered frame is written out twice where the source
binds it once; both occurrences denote the same pure value. -/
def analyze (alpha : ℚ) (st : AnalyzerState) (frame : List ℚ) (ext : Extracted) :
    AnalyzerState × AnalysisResult :=
  if frame.length < 256 then (st, silent_result)
  else if meanSq (high_pass_filter alpha frame) < rmsThresholdSq st then
    (st, silent_result)
  else if ext.intensity > intensityThreshold st ∧
          meanSq (high_pass_filter alpha frame) > rmsThresholdSq st then
    analyzeVoiced st ext
  else
    analyzeDecay st ext

/-- Calibration history capacity:
`int(sample_rate * calibration_duration / 512) = int(16000 * 1.0 / 512) = 31`. -/
def maxCalibrationSamples : ℕ := 16000 / 512

/-- Append this frame's squared RMS to the history, then keep only the most
recent `maxCalibrationSamples` entries (the source's
`self.calibration_samples[-max_samples:]`). -/
def calibHistoryUpdate (hist : List ℚ) (rmsSq : ℚ) : List ℚ :=
  if maxCalibrationSamples < (hist ++ [rmsSq]).length then
    (hist ++ [rmsSq]).drop ((hist ++ [rmsSq]).length - maxCalibrationSamples)
  else hist ++ [rmsSq]

/-- Index of the source's 90th percentile: `int(len(sorted_samples) * 0.9)`.
For every history length up to the capacity 31 the float computation
`int(n * 0.9)` agrees with `n * 9 / 10` in natural-number arithmetic. -/
def percentileIdx (n : ℕ) : ℕ := n * 9 / 10

/-- `AudioAnalyzer.calibrate_noise_floor`.  `calIntensity` is the external
intensity measurement of this frame (`none` models the measurement raising,
i.e. the `except: pass` branch keeping the old intensity floor).  Frames
shorter than 256 samples return `false` without touching the state.  Once
the updated history holds at least `31 // 2 = 15` entries the noise floor
becomes the sorted history's entry at `percentileIdx`, the intensity floor
becomes `max(20, measured - 5)`, and the state is marked calibrated. -/
def calibrate_noise_floor (st : AnalyzerState) (frame : List ℚ)
    (calIntensity : Option ℚ) : AnalyzerState × Bool :=
  if frame.length < 256 then (st, false)
  else
    let h := calibHistoryUpdate st.calibration_samples (meanSq frame)
    if maxCalibrationSamples / 2 ≤ h.length then
      ({ st with
          calibration_samples := h,
          noise_floor_rmsSq :=
            (h.insertionSort (· ≤ ·)).getD (percentileIdx h.length) 0,
          noise_floor_intensity :=
            match calIntensity with
            | some i => max 20 (i - 5)
            | none => st.noise_floor_intensity,
          is_calibrated := true }, true)
    else
      ({ st with calibration_samples := h }, false)

/-- State of one `websocket_audio` loop: the analyzer (a module-level
singleton in the source, reset on connect), the rolling sample buffer, the
`samples_since_last_process` counter, and the two calibration-phase flags. -/
structure SessionState where
  analyzer : AnalyzerState
  buffer : List ℚ
  samplesSince : ℕ
  calibrating : Bool
  calibrationStarted : Bool
deriving DecidableEq, Repr

/-- Session state at the top of the loop on a fresh connection
(`analyzer.reset()` has run; empty buffer; counter 0; calibrating). -/
def initSession : SessionState :=
  { analyzer := initAnalyzer, buffer := [], samplesSince := 0,
    calibrating := true, calibrationStarted := false }

/-- Content of a received text frame, as seen after `json.loads` and
`msg.get("type")`: `badJson` is content that fails to parse (raising
`json.JSONDecodeError`), `nonObjectJson` is valid JSON that is not an
object (so `.get` raises `AttributeError`), and `jsonObj t` is an object
whose `"type"` entry is the string `t` (`none`: entry absent or not one of
the three command strings' type). -/
inductive TextContent where
  | badJson : TextContent
  | nonObjectJson : TextContent
  | jsonObj : Option String → TextContent
deriving DecidableEq, Repr

/-- One received websocket message: binary little-endian int16 PCM
(already split into samples) or a text frame. -/
inductive Msg where
  | binary : List ℤ → Msg
  | text : TextContent → Msg
deriving DecidableEq, Repr

/-- Messages the handler sends.  `calibrated` carries the (squared) noise
floor RMS and the intensity floor; the source additionally rounds values
for display, which is not modelled. -/
inductive OutMsg where
  | calibratingMsg : OutMsg
  | calibratedMsg : ℚ → ℚ → OutMsg
  | pong : OutMsg
  | resetAck : OutMsg
  | analysis : AnalysisResult → OutMsg
deriving DecidableEq, Repr

/-- Per-message outputs of the external extractor: the intensity measured
by `calibrate_noise_floor` on this chunk (`none` = the call raised) and the
extraction results used by `analyze`. -/
structure Oracle where
  calIntensity : Option ℚ
  ext : Extracted
deriving DecidableEq, Repr

/-- `SAMPLE_RATE * 0.2 = 3200`: the rolling-buffer cap of `main.py`. -/
def maxBuffer : ℕ := 3200

/-- Append a converted chunk to the rolling buffer, then trim to the most
recent `maxBuffer` samples (`audio_buffer[-max_buffer:]`). -/
def appendTrim (buf chunk : List ℚ) : List ℚ :=
  if maxBuffer < (buf ++ chunk).length then
    (buf ++ chunk).drop ((buf ++ chunk).length - maxBuffer)
  else buf ++ chunk

/-- One iteration of the `websocket_audio` receive loop, given the
external-extractor outputs for this message.  `none` models an exception
escaping the loop body (invalid JSON or non-object JSON), which ends the
handler and closes the connection; `some (st, outs)` is the next state and
the messages sent this iteration, in order.  Binary path: convert int16
samples by `/ 32768`, append and trim the buffer, bump the counter; while
calibrating, emit `calibrating` once, feed chunks of at least 256 samples
to the calibrator and emit `calibrated` on convergence; afterwards (also in
the same iteration that just converged), when the counter has reached 512
and the buffer holds at least 1024 samples, reset the counter and analyze
the last 1024 buffered samples. -/
def processMessage (alpha : ℚ) (orc : Oracle) (st : SessionState) (m : Msg) :
    Option (SessionState × List OutMsg) :=
  match m with
  | .binary samples =>
    let floats := samples.map (fun z => (z : ℚ) / 32768)
    let buf := appendTrim st.buffer floats
    let cnt := st.samplesSince + floats.length
    if st.calibrating then
      let outs1 := if st.calibrationStarted then [] else [OutMsg.calibratingMsg]
      if 256 ≤ floats.length then
        let p := calibrate_noise_floor st.analyzer floats orc.calIntensity
        if p.2 then
          let outs2 := outs1 ++
            [OutMsg.calibratedMsg p.1.noise_floor_rmsSq p.1.noise_floor_intensity]
          if 512 ≤ cnt ∧ 1024 ≤ buf.length then
            let q := analyze alpha p.1 (buf.drop (buf.length - 1024)) orc.ext
            some ({ analyzer := q.1, buffer := buf, samplesSince := 0,
                    calibrating := false, calibrationStarted := true },
                  outs2 ++ [OutMsg.analysis q.2])
          else
            some ({ analyzer := p.1, buffer := buf, samplesSince := cnt,
                    calibrating := false, calibrationStarted := true }, outs2)
        else
          some ({ analyzer := p.1, buffer := buf, samplesSince := cnt,
                  calibrating := true, calibrationStarted := true }, outs1)
      else
        some ({ st with
                  buffer := buf, samplesSince := cnt,
                  calibrationStarted := true }, outs1)
    else
      if 512 ≤ cnt ∧ 1024 ≤ buf.length then
        let q := analyze alpha st.analyzer (buf.drop (buf.length - 1024)) orc.ext
        some ({ st with analyzer := q.1, buffer := buf, samplesSince := 0 },
              [OutMsg.analysis q.2])
      else
        some ({ st with buffer := buf, samplesSince := cnt }, [])
  | .text t =>
    match t with
    | .badJson => none
    | .nonObjectJson => none
    | .jsonObj typ =>
      if typ = some "ping" then some (st, [OutMsg.pong])
      else if typ = some "reset" then
        some ({ analyzer := initAnalyzer, buffer := [],
                samplesSince := st.samplesSince,
                calibrating := true, calibrationStarted := false },
              [OutMsg.resetAck])
      else if typ = some "recalibrate" then
        some ({ st with
                  analyzer := initAnalyzer,
                  calibrating := true, calibrationStarted := false },
              [OutMsg.calibratingMsg])
      else some (st, [])

/-- Run the receive loop over a list of messages (each with its extractor
outputs), stopping with `none` if any iteration raises. -/
def processMessages (alpha : ℚ) : SessionState → List (Msg × Oracle) → Option SessionState
  | st, [] => some st
  | st, (m, orc) :: rest =>
      match processMessage alpha orc st m with
      | none => none
      | some (st2, _) => processMessages alpha st2 rest

/-! ### Shared concrete inputs for witnesses and counterexamples -/

/-- A 256-sample frame of zeros. -/
def frameZeros : List ℚ := List.replicate 256 0

/-- A 256-sample unit impulse: the high-pass filter maps it to itself for
every coefficient (`y[1] = alpha * (1 + 0 - 1) = 0`), so its filtered
mean-square is `1/256`, above both squared RMS thresholds. -/
def frameImpulse : List ℚ := 1 :: List.replicate 255 0

/-- Extractor outputs with a low intensity reading (fails every intensity
threshold). -/
def extQuiet : Extracted :=
  { f1 := 400, f2 := 1600, f3 := 2600, pitch := 100, intensity := 10 }

/-- Extractor outputs with a high intensity reading (passes the
uncalibrated 45 dB threshold). -/
def extLoud : Extracted :=
  { f1 := 400, f2 := 1600, f3 := 2600, pitch := 100, intensity := 50 }

/-- An analyzer state right after voiced frames: nonzero smoothed F1/F2. -/
def stVoicedPrev : AnalyzerState :=
  { initAnalyzer with last_f1 := 500, last_f2 := 1500 }

/-- An all-zero oracle (extractor returning silence). -/
def orcZero : Oracle :=
  { calIntensity := none,
    ext := { f1 := 0, f2 := 0, f3 := 0, pitch := 0, intensity := 0 } }

/-! ### Branch lemmas for `analyze` -/

/-- Frames shorter than 256 samples are silent and leave the state alone. -/
theorem analyze_short_eq (alpha : ℚ) (st : AnalyzerState) (frame : List ℚ)
    (ext : Extracted) (h1 : frame.length < 256) :
    analyze alpha st frame ext = (st, silent_result) := by
  unfold analyze
  rw [if_pos h1]

/-- The quick-RMS-check branch of `analyze`. -/
theorem analyze_silent_eq (alpha : ℚ) (st : AnalyzerState) (frame : List ℚ)
    (ext : Extracted) (h1 : ¬ frame.length < 256)
    (h2 : meanSq (high_pass_filter alpha frame) < rmsThresholdSq st) :
    analyze alpha st frame ext = (st, silent_result) := by
  unfold analyze
  rw [if_neg h1, if_pos h2]

/-- The unvoiced decay branch of `analyze`. -/
theorem analyze_decay_eq (alpha : ℚ) (st : AnalyzerState) (frame : List ℚ)
    (ext : Extracted) (h1 : ¬ frame.length < 256)
    (h2 : ¬ meanSq (high_pass_filter alpha frame) < rmsThresholdSq st)
    (h3 : ¬ (ext.intensity > intensityThreshold st ∧
             meanSq (high_pass_filter alpha frame) > rmsThresholdSq st)) :
    analyze alpha st frame ext = analyzeDecay st ext := by
  unfold analyze
  rw [if_neg h1, if_neg h2, if_neg h3]

/-- The voiced branch of `analyze`. -/
theorem analyze_voiced_eq (alpha : ℚ) (st : AnalyzerState) (frame : List ℚ)
    (ext : Extracted) (h1 : ¬ frame.length < 256)
    (h2 : ¬ meanSq (high_pass_filter alpha frame) < rmsThresholdSq st)
    (h3 : ext.intensity > intensityThreshold st ∧
          meanSq (high_pass_filter alpha frame) > rmsThresholdSq st) :
    analyze alpha st frame ext = analyzeVoiced st ext := by
  unfold analyze
  rw [if_neg h1, if_neg h2, if_pos h3]

/-! ### The all-zero frame -/

/-- The filter recurrence maps zeros to zeros from a zero context. -/
theorem highPassAux_zeros (alpha : ℚ) (n : ℕ) :
    highPassAux alpha 0 0 (List.replicate n 0) = List.replicate n 0 := by
  induction n with
  | zero => rfl
  | succ n ih => simp [List.replicate_succ, highPassAux, ih]

/-- The high-pass filter maps an all-zero frame to itself, for every
coefficient. -/
theorem high_pass_filter_zeros (alpha : ℚ) (n : ℕ) :
    high_pass_filter alpha (List.replicate n 0) = List.replicate n 0 := by
  cases n with
  | zero => rfl
  | succ n => simp [List.replicate_succ, high_pass_filter, highPassAux_zeros]

/-- The mean square of an all-zero frame is 0. -/
theorem meanSq_replicate_zero (n : ℕ) : meanSq (List.replicate n (0 : ℚ)) = 0 := by
  simp [meanSq]

/-- Both RMS thresholds are strictly positive whatever the stored noise
floor is (the `max` against the absolute minimum floors guarantees it). -/
theorem rmsThresholdSq_pos (st : AnalyzerState) : 0 < rmsThresholdSq st := by
  unfold rmsThresholdSq
  split
  · exact lt_of_lt_of_le (by norm_num) (le_max_left _ _)
  · norm_num

/-- Claim C7: for every frame consisting entirely of zero samples, and for
every calibration state (calibrated or not, any noise-floor values), the
analysis reports `is_voiced = false`: short zero frames take the too-short
silent path, and longer ones filter to zeros, whose mean square 0 is below
the strictly positive RMS threshold. -/
theorem claim_C7 (alpha : ℚ) (st : AnalyzerState) (ext : Extracted) (n : ℕ) :
    (analyze alpha st (List.replicate n 0) ext).2.is_voiced = false := by
  by_cases h1 : (List.replicate (n := n) (0 : ℚ)).length < 256
  · rw [analyze_short_eq alpha st _ ext h1]
    rfl
  · have h2 : meanSq (high_pass_filter alpha (List.replicate n (0 : ℚ))) <
        rmsThresholdSq st := by
      rw [high_pass_filter_zeros, meanSq_replicate_zero]
      exact rmsThresholdSq_pos st
    rw [analyze_silent_eq alpha st _ ext h1 h2]
    rfl


/-- Claim C8: `_smooth(raw, previous)` returns `previous * 0.5` when
`raw = 0` and `previous * 0.3 + raw * 0.7` otherwise; in particular
`smooth 0 400 = 200` and applying it again gives `100`. -/
theorem claim_C8 (r p : ℚ) :
    (r = 0 → smooth r p = p * (1/2)) ∧
    (r ≠ 0 → smooth r p = p * (3/10) + r * (7/10)) ∧
    smooth 0 400 = 200 ∧ smooth 0 (smooth 0 400) = 100 := by
  refine ⟨fun h => ?_, fun h => ?_, by norm_num [smooth], by norm_num [smooth]⟩
  · unfold smooth; rw [if_pos h]
  · unfold smooth; rw [if_neg h]

/-- Witness for C8: both branch hypotheses are satisfiable, evaluated at
`raw = 0, prev = 400` and at `raw = 5, prev = 10`. -/
theorem claim_C8_witness :
    smooth 0 400 = 400 * (1/2) ∧ smooth 5 10 = 10 * (3/10) + 5 * (7/10) :=
  ⟨(claim_C8 0 400).1 rfl, (claim_C8 5 10).2.1 (by norm_num)⟩

/-! ### The impulse frame -/

/-- The high-pass filter maps the 256-sample unit impulse to itself, for
every coefficient: the second output is `alpha * (1 + 0 - 1) = 0` and all
later ones stay 0. -/
theorem high_pass_filter_impulse (alpha : ℚ) :
    high_pass_filter alpha frameImpulse = frameImpulse := by
  have h : List.replicate 255 (0 : ℚ) = 0 :: List.replicate 254 0 := rfl
  unfold frameImpulse high_pass_filter
  rw [h]
  simp [highPassAux, highPassAux_zeros]

/-- The mean square of the 256-sample unit impulse is `1/256`. -/
theorem meanSq_impulse : meanSq frameImpulse = 1/256 := by
  unfold frameImpulse meanSq
  simp

/-- On an uncalibrated state the squared RMS threshold is the fixed
`0.04^2 = 16/10000`. -/
theorem rmsThresholdSq_uncal (st : AnalyzerState) (h : st.is_calibrated = false) :
    rmsThresholdSq st = 16/10000 := by
  simp [rmsThresholdSq, h]

/-- On an uncalibrated state the intensity threshold is the fixed `45`. -/
theorem intensityThreshold_uncal (st : AnalyzerState) (h : st.is_calibrated = false) :
    intensityThreshold st = 45 := by
  simp [intensityThreshold, h]

/-! ### Claim C1 -/

/-- Claim C1 counterexample: the 256-sample all-zero frame is judged not
voiced (`is_voiced = false`), yet from the state with previous smoothed
`F1 = 500, F2 = 1500` and a measured extractor intensity of 50 the result
reports `f1 = 0` (not the decayed `500 * 0.8 = 400`) and `intensity = 0`
(not the measured 50), and the stored F1 state stays `500` (not decayed):
frames failing the quick RMS check take the all-zero silent path, refuting
the claim for such frames. -/
theorem claim_C1_counterexample :
    (analyze (1/2) stVoicedPrev frameZeros extLoud).2.is_voiced = false ∧
    (analyze (1/2) stVoicedPrev frameZeros extLoud).2.f1 = 0 ∧
    (analyze (1/2) stVoicedPrev frameZeros extLoud).2.intensity = 0 ∧
    (analyze (1/2) stVoicedPrev frameZeros extLoud).1.last_f1 = 500 ∧
    stVoicedPrev.last_f1 * (8/10) = 400 ∧ (400 : ℚ) ≠ 0 ∧
    extLoud.intensity = 50 ∧ (50 : ℚ) ≠ 0 := by
  have h1 : ¬ (frameZeros.length < 256) := by decide
  have h2 : meanSq (high_pass_filter (1/2) frameZeros) < rmsThresholdSq stVoicedPrev := by
    rw [show frameZeros = List.replicate 256 0 from rfl, high_pass_filter_zeros,
      meanSq_replicate_zero]
    exact rmsThresholdSq_pos _
  rw [analyze_silent_eq (1/2) stVoicedPrev frameZeros extLoud h1 h2]
  exact ⟨rfl, rfl, rfl, rfl, by norm_num [stVoicedPrev, initAnalyzer],
    by norm_num, rfl, by norm_num⟩

/-- Claim C1 (amended): a frame that passes the length and quick-RMS checks
but fails the combined intensity-and-RMS voicing decision gets the decay
behaviour — the result carries the measured intensity, reports pitch and F3
as 0 and F1/F2 as the previous smoothed values decayed by 0.8, and the
stored F1/F2 state is likewise multiplied by 0.8; a frame failing the
quick RMS check (or shorter than 256 samples) instead yields the all-zero
silent result with the state unchanged. -/
theorem claim_C1_amended (alpha : ℚ) (st : AnalyzerState) (frame : List ℚ)
    (ext : Extracted) :
    (¬ frame.length < 256 →
     ¬ meanSq (high_pass_filter alpha frame) < rmsThresholdSq st →
     ¬ (ext.intensity > intensityThreshold st ∧
        meanSq (high_pass_filter alpha frame) > rmsThresholdSq st) →
     analyze alpha st frame ext =
       ({ st with last_f1 := st.last_f1 * (8/10), last_f2 := st.last_f2 * (8/10) },
        { f1 := st.last_f1 * (8/10), f2 := st.last_f2 * (8/10), f3 := 0, pitch := 0,
          intensity := ext.intensity, is_voiced := false,
          detected_vowel := none, confidence_dsq := none })) ∧
    (¬ frame.length < 256 →
     meanSq (high_pass_filter alpha frame) < rmsThresholdSq st →
     analyze alpha st frame ext = (st, silent_result)) ∧
    (frame.length < 256 → analyze alpha st frame ext = (st, silent_result)) := by
  refine ⟨fun h1 h2 h3 => ?_, fun h1 h2 => analyze_silent_eq alpha st frame ext h1 h2,
    fun h1 => analyze_short_eq alpha st frame ext h1⟩
  rw [analyze_decay_eq alpha st frame ext h1 h2 h3]
  rfl

/-- Witness for C1 (amended): the unit impulse with a 10 dB intensity
reading takes the decay branch from `stVoicedPrev`, and the all-zero frame
takes the silent branch. -/
theorem claim_C1_witness :
    analyze (1/2) stVoicedPrev frameImpulse extQuiet =
      ({ stVoicedPrev with
           last_f1 := stVoicedPrev.last_f1 * (8/10),
           last_f2 := stVoicedPrev.last_f2 * (8/10) },
       { f1 := stVoicedPrev.last_f1 * (8/10), f2 := stVoicedPrev.last_f2 * (8/10),
         f3 := 0, pitch := 0, intensity := extQuiet.intensity, is_voiced := false,
         detected_vowel := none, confidence_dsq := none }) ∧
    analyze (1/2) stVoicedPrev frameZeros extQuiet = (stVoicedPrev, silent_result) := by
  have h1 : ¬ ((frameImpulse : List ℚ).length < 256) := by decide
  have h2 : ¬ meanSq (high_pass_filter (1/2) frameImpulse) < rmsThresholdSq stVoicedPrev := by
    rw [high_pass_filter_impulse, meanSq_impulse, rmsThresholdSq_uncal _ rfl]
    norm_num
  have h3 : ¬ (extQuiet.intensity > intensityThreshold stVoicedPrev ∧
      meanSq (high_pass_filter (1/2) frameImpulse) > rmsThresholdSq stVoicedPrev) := by
    rintro ⟨hA, _⟩
    rw [intensityThreshold_uncal _ rfl] at hA
    norm_num [extQuiet] at hA
  have h4 : ¬ ((frameZeros : List ℚ).length < 256) := by decide
  have h5 : meanSq (high_pass_filter (1/2) frameZeros) < rmsThresholdSq stVoicedPrev := by
    rw [show frameZeros = List.replicate 256 0 from rfl, high_pass_filter_zeros,
      meanSq_replicate_zero]
    exact rmsThresholdSq_pos _
  exact ⟨(claim_C1_amended (1/2) stVoicedPrev frameImpulse extQuiet).1 h1 h2 h3,
    (claim_C1_amended (1/2) stVoicedPrev frameZeros extQuiet).2.1 h4 h5⟩

/-! ### The voiced branch -/

/-- When the previous smoothed F1 is positive, the voiced branch smooths
all four quantities against their stored previous values. -/
theorem analyzeVoiced_pos (st : AnalyzerState) (ext : Extracted)
    (h : 0 < st.last_f1) :
    analyzeVoiced st ext =
      ({ st with
           last_f1 := smooth ext.f1 st.last_f1,
           last_f2 := smooth ext.f2 st.last_f2,
           last_f3 := smooth ext.f3 st.last_f3,
           last_pitch := smooth ext.pitch st.last_pitch },
       { f1 := smooth ext.f1 st.last_f1, f2 := smooth ext.f2 st.last_f2,
         f3 := smooth ext.f3 st.last_f3, pitch := smooth ext.pitch st.last_pitch,
         intensity := ext.intensity, is_voiced := true,
         detected_vowel :=
           (detect_vowel (smooth ext.f1 st.last_f1) (smooth ext.f2 st.last_f2)).1,
         confidence_dsq :=
           (detect_vowel (smooth ext.f1 st.last_f1) (smooth ext.f2 st.last_f2)).2 }) := by
  unfold analyzeVoiced
  simp only [if_pos h]

/-- When the previous smoothed F1 is not positive, the voiced branch takes
all four raw values as-is. -/
theorem analyzeVoiced_nonpos (st : AnalyzerState) (ext : Extracted)
    (h : ¬ 0 < st.last_f1) :
    analyzeVoiced st ext =
      ({ st with
           last_f1 := ext.f1, last_f2 := ext.f2,
           last_f3 := ext.f3, last_pitch := ext.pitch },
       { f1 := ext.f1, f2 := ext.f2, f3 := ext.f3, pitch := ext.pitch,
         intensity := ext.intensity, is_voiced := true,
         detected_vowel := (detect_vowel ext.f1 ext.f2).1,
         confidence_dsq := (detect_vowel ext.f1 ext.f2).2 }) := by
  unfold analyzeVoiced
  simp only [if_neg h]

/-! ### Claim C3 -/

/-- An analyzer state with nonzero previous F1/F2/F3 but zero previous
pitch (reachable: a voiced frame whose pitch extraction returned 0). -/
def stPitchZero : AnalyzerState :=
  { initAnalyzer with last_f1 := 500, last_f2 := 1500, last_f3 := 2500 }

/-- Claim C3 counterexample: with previous pitch 0 and raw pitch 100 on a
voiced frame, the emitted pitch is `smooth 100 0 = 70`, not the raw 100:
the take-as-is bypass is gated on the previous F1 alone (500 here), so it
is not applied to pitch independently as the claim states. -/
theorem claim_C3_counterexample :
    stPitchZero.last_pitch = 0 ∧ extLoud.pitch = 100 ∧ (100 : ℚ) ≠ 0 ∧
    (analyze (1/2) stPitchZero frameImpulse extLoud).2.pitch = 70 ∧
    (70 : ℚ) ≠ 100 := by
  have h1 : ¬ ((frameImpulse : List ℚ).length < 256) := by decide
  have h2 : ¬ meanSq (high_pass_filter (1/2) frameImpulse) < rmsThresholdSq stPitchZero := by
    rw [high_pass_filter_impulse, meanSq_impulse, rmsThresholdSq_uncal _ rfl]
    norm_num
  have h3 : extLoud.intensity > intensityThreshold stPitchZero ∧
      meanSq (high_pass_filter (1/2) frameImpulse) > rmsThresholdSq stPitchZero := by
    rw [high_pass_filter_impulse, meanSq_impulse, rmsThresholdSq_uncal _ rfl,
      intensityThreshold_uncal _ rfl]
    norm_num [extLoud]
  have hpos : 0 < stPitchZero.last_f1 := by norm_num [stPitchZero]
  rw [analyze_voiced_eq (1/2) stPitchZero frameImpulse extLoud h1 h2 h3,
    analyzeVoiced_pos _ _ hpos]
  refine ⟨rfl, rfl, by norm_num, ?_, by norm_num⟩
  norm_num [smooth, extLoud, stPitchZero, initAnalyzer]

/-- Claim C3 (amended): the take-as-is bypass is gated on the previous
smoothed F1 alone.  On a voiced frame, if the previous F1 is positive then
all four quantities are smoothed against their stored previous values
(in particular a quantity whose own previous value is 0 receives
`0.7 * raw`, not `raw`); if the previous F1 is not positive then all four
raw values are taken as-is. -/
theorem claim_C3_amended (alpha : ℚ) (st : AnalyzerState) (frame : List ℚ)
    (ext : Extracted) :
    (¬ frame.length < 256 →
     ¬ meanSq (high_pass_filter alpha frame) < rmsThresholdSq st →
     (ext.intensity > intensityThreshold st ∧
      meanSq (high_pass_filter alpha frame) > rmsThresholdSq st) →
     0 < st.last_f1 →
     analyze alpha st frame ext =
       ({ st with
            last_f1 := smooth ext.f1 st.last_f1,
            last_f2 := smooth ext.f2 st.last_f2,
            last_f3 := smooth ext.f3 st.last_f3,
            last_pitch := smooth ext.pitch st.last_pitch },
        { f1 := smooth ext.f1 st.last_f1, f2 := smooth ext.f2 st.last_f2,
          f3 := smooth ext.f3 st.last_f3, pitch := smooth ext.pitch st.last_pitch,
          intensity := ext.intensity, is_voiced := true,
          detected_vowel :=
            (detect_vowel (smooth ext.f1 st.last_f1) (smooth ext.f2 st.last_f2)).1,
          confidence_dsq :=
            (detect_vowel (smooth ext.f1 st.last_f1) (smooth ext.f2 st.last_f2)).2 })) ∧
    (¬ frame.length < 256 →
     ¬ meanSq (high_pass_filter alpha frame) < rmsThresholdSq st →
     (ext.intensity > intensityThreshold st ∧
      meanSq (high_pass_filter alpha frame) > rmsThresholdSq st) →
     ¬ 0 < st.last_f1 →
     analyze alpha st frame ext =
       ({ st with
            last_f1 := ext.f1, last_f2 := ext.f2,
            last_f3 := ext.f3, last_pitch := ext.pitch },
        { f1 := ext.f1, f2 := ext.f2, f3 := ext.f3, pitch := ext.pitch,
          intensity := ext.intensity, is_voiced := true,
          detected_vowel := (detect_vowel ext.f1 ext.f2).1,
          confidence_dsq := (detect_vowel ext.f1 ext.f2).2 })) := by
  constructor
  · intro h1 h2 h3 h4
    rw [analyze_voiced_eq alpha st frame ext h1 h2 h3]
    exact analyzeVoiced_pos st ext h4
  · intro h1 h2 h3 h4
    rw [analyze_voiced_eq alpha st frame ext h1 h2 h3]
    exact analyzeVoiced_nonpos st ext h4

/-- Witness for C3 (amended): the smoothed branch from `stPitchZero`
(previous F1 = 500) and the as-is branch from the fresh state
(previous F1 = 0), both on the unit impulse with a loud extractor. -/
theorem claim_C3_witness :
    analyze (1/2) stPitchZero frameImpulse extLoud =
      ({ stPitchZero with
           last_f1 := smooth extLoud.f1 stPitchZero.last_f1,
           last_f2 := smooth extLoud.f2 stPitchZero.last_f2,
           last_f3 := smooth extLoud.f3 stPitchZero.last_f3,
           last_pitch := smooth extLoud.pitch stPitchZero.last_pitch },
       { f1 := smooth extLoud.f1 stPitchZero.last_f1,
         f2 := smooth extLoud.f2 stPitchZero.last_f2,
         f3 := smooth extLoud.f3 stPitchZero.last_f3,
         pitch := smooth extLoud.pitch stPitchZero.last_pitch,
         intensity := extLoud.intensity, is_voiced := true,
         detected_vowel := (detect_vowel (smooth extLoud.f1 stPitchZero.last_f1)
           (smooth extLoud.f2 stPitchZero.last_f2)).1,
         confidence_dsq := (detect_vowel (smooth extLoud.f1 stPitchZero.last_f1)
           (smooth extLoud.f2 stPitchZero.last_f2)).2 }) ∧
    analyze (1/2) initAnalyzer frameImpulse extLoud =
      ({ initAnalyzer with
           last_f1 := extLoud.f1, last_f2 := extLoud.f2,
           last_f3 := extLoud.f3, last_pitch := extLoud.pitch },
       { f1 := extLoud.f1, f2 := extLoud.f2, f3 := extLoud.f3,
         pitch := extLoud.pitch, intensity := extLoud.intensity, is_voiced := true,
         detected_vowel := (detect_vowel extLoud.f1 extLoud.f2).1,
         confidence_dsq := (detect_vowel extLoud.f1 extLoud.f2).2 }) := by
  have h1 : ¬ ((frameImpulse : List ℚ).length < 256) := by decide
  have h2 : ¬ meanSq (high_pass_filter (1/2) frameImpulse) < rmsThresholdSq stPitchZero := by
    rw [high_pass_filter_impulse, meanSq_impulse, rmsThresholdSq_uncal _ rfl]
    norm_num
  have h3 : extLoud.intensity > intensityThreshold stPitchZero ∧
      meanSq (high_pass_filter (1/2) frameImpulse) > rmsThresholdSq stPitchZero := by
    rw [high_pass_filter_impulse, meanSq_impulse, rmsThresholdSq_uncal _ rfl,
      intensityThreshold_uncal _ rfl]
    norm_num [extLoud]
  have h2i : ¬ meanSq (high_pass_filter (1/2) frameImpulse) < rmsThresholdSq initAnalyzer := by
    rw [high_pass_filter_impulse, meanSq_impulse, rmsThresholdSq_uncal _ rfl]
    norm_num
  have h3i : extLoud.intensity > intensityThreshold initAnalyzer ∧
      meanSq (high_pass_filter (1/2) frameImpulse) > rmsThresholdSq initAnalyzer := by
    rw [high_pass_filter_impulse, meanSq_impulse, rmsThresholdSq_uncal _ rfl,
      intensityThreshold_uncal _ rfl]
    norm_num [extLoud]
  exact ⟨(claim_C3_amended (1/2) stPitchZero frameImpulse extLoud).1 h1 h2 h3
      (by norm_num [stPitchZero]),
    (claim_C3_amended (1/2) initAnalyzer frameImpulse extLoud).2 h1 h2i h3i
      (by norm_num [initAnalyzer])⟩

/-! ### Claim C10 -/

/-- Claim C10: when a frame passes the quick RMS check but the combined
voicing decision fails (the decay branch), the stored last-pitch and
last-F3 state keep their previous values while the emitted result reports
pitch = 0 and F3 = 0; and any subsequent voiced frame (the decay branch
keeps F1 positive, so smoothing is not bypassed) smooths its pitch and F3
against those retained pre-silence values instead of taking the raw values
as-is. -/
theorem claim_C10 (alpha : ℚ) (st : AnalyzerState) (frame : List ℚ)
    (ext : Extracted)
    (hf1 : 0 < st.last_f1) (_hp : 0 < st.last_pitch) (_hf3 : 0 < st.last_f3)
    (h1 : ¬ frame.length < 256)
    (h2 : ¬ meanSq (high_pass_filter alpha frame) < rmsThresholdSq st)
    (h3 : ¬ (ext.intensity > intensityThreshold st ∧
             meanSq (high_pass_filter alpha frame) > rmsThresholdSq st)) :
    (analyze alpha st frame ext).1.last_pitch = st.last_pitch ∧
    (analyze alpha st frame ext).1.last_f3 = st.last_f3 ∧
    (analyze alpha st frame ext).2.pitch = 0 ∧
    (analyze alpha st frame ext).2.f3 = 0 ∧
    (∀ frame2 ext2,
      ¬ frame2.length < 256 →
      ¬ meanSq (high_pass_filter alpha frame2) <
          rmsThresholdSq (analyze alpha st frame ext).1 →
      (ext2.intensity > intensityThreshold (analyze alpha st frame ext).1 ∧
       meanSq (high_pass_filter alpha frame2) >
          rmsThresholdSq (analyze alpha st frame ext).1) →
      (analyze alpha (analyze alpha st frame ext).1 frame2 ext2).2.pitch =
          smooth ext2.pitch st.last_pitch ∧
      (analyze alpha (analyze alpha st frame ext).1 frame2 ext2).2.f3 =
          smooth ext2.f3 st.last_f3) := by
  rw [analyze_decay_eq alpha st frame ext h1 h2 h3]
  refine ⟨rfl, rfl, rfl, rfl, ?_⟩
  intro frame2 ext2 g1 g2 g3
  have hpos : 0 < (analyzeDecay st ext).1.last_f1 := by
    show 0 < st.last_f1 * (8/10)
    exact mul_pos hf1 (by norm_num)
  rw [analyze_voiced_eq alpha _ frame2 ext2 g1 g2 g3, analyzeVoiced_pos _ _ hpos]
  exact ⟨rfl, rfl⟩

/-- An analyzer state with all four smoothed quantities positive. -/
def stFullPrev : AnalyzerState :=
  { initAnalyzer with
      last_f1 := 500, last_f2 := 1500, last_f3 := 2500, last_pitch := 200 }

/-- Witness for C10: from `stFullPrev`, a quiet impulse frame takes the
decay branch retaining pitch 200 and F3 2500, and a following loud impulse
frame smooths its raw pitch and F3 against those retained values. -/
theorem claim_C10_witness :
    (analyze (1/2) stFullPrev frameImpulse extQuiet).1.last_pitch =
      stFullPrev.last_pitch ∧
    (analyze (1/2) (analyze (1/2) stFullPrev frameImpulse extQuiet).1
        frameImpulse extLoud).2.pitch = smooth extLoud.pitch stFullPrev.last_pitch ∧
    (analyze (1/2) (analyze (1/2) stFullPrev frameImpulse extQuiet).1
        frameImpulse extLoud).2.f3 = smooth extLoud.f3 stFullPrev.last_f3 := by
  have h1 : ¬ ((frameImpulse : List ℚ).length < 256) := by decide
  have h2 : ¬ meanSq (high_pass_filter (1/2) frameImpulse) < rmsThresholdSq stFullPrev := by
    rw [high_pass_filter_impulse, meanSq_impulse, rmsThresholdSq_uncal _ rfl]
    norm_num
  have h3 : ¬ (extQuiet.intensity > intensityThreshold stFullPrev ∧
      meanSq (high_pass_filter (1/2) frameImpulse) > rmsThresholdSq stFullPrev) := by
    rintro ⟨hA, _⟩
    rw [intensityThreshold_uncal _ rfl] at hA
    norm_num [extQuiet] at hA
  have hdec := analyze_decay_eq (1/2) stFullPrev frameImpulse extQuiet h1 h2 h3
  have g2 : ¬ meanSq (high_pass_filter (1/2) frameImpulse) <
      rmsThresholdSq (analyze (1/2) stFullPrev frameImpulse extQuiet).1 := by
    rw [hdec, high_pass_filter_impulse, meanSq_impulse, rmsThresholdSq_uncal _ rfl]
    norm_num
  have g3 : extLoud.intensity >
      intensityThreshold (analyze (1/2) stFullPrev frameImpulse extQuiet).1 ∧
      meanSq (high_pass_filter (1/2) frameImpulse) >
      rmsThresholdSq (analyze (1/2) stFullPrev frameImpulse extQuiet).1 := by
    rw [hdec, high_pass_filter_impulse, meanSq_impulse, rmsThresholdSq_uncal _ rfl,
      intensityThreshold_uncal _ rfl]
    norm_num [extLoud]
  have h := claim_C10 (1/2) stFullPrev frameImpulse extQuiet
    (by norm_num [stFullPrev]) (by norm_num [stFullPrev]) (by norm_num [stFullPrev])
    h1 h2 h3
  exact ⟨h.1, (h.2.2.2.2 frameImpulse extLoud h1 g2 g3).1,
    (h.2.2.2.2 frameImpulse extLoud h1 g2 g3).2⟩

/-! ### Claim C2 -/

/-- Claim C2 counterexample: a text message with invalid JSON makes the
loop body raise (`json.loads` throws and nothing catches it inside the
loop), modelled by `none`: the session loop does not continue with any
state, contradicting the claim that the message is ignored. -/
theorem claim_C2_counterexample :
    processMessage (1/2) orcZero initSession (Msg.text TextContent.badJson) = none ∧
    ∀ (st2 : SessionState) (outs : List OutMsg),
      processMessage (1/2) orcZero initSession (Msg.text TextContent.badJson) ≠
        some (st2, outs) := by
  refine ⟨rfl, fun st2 outs h => ?_⟩
  rw [show processMessage (1/2) orcZero initSession (Msg.text TextContent.badJson) =
    none from rfl] at h
  exact Option.noConfusion h

/-- Claim C2 (amended): a text message that parses to a JSON object whose
type is none of ping/reset/recalibrate is ignored (no reply, state
unchanged) and the loop continues; a message with invalid JSON — or valid
JSON that is not an object, on which `.get` raises — escapes the loop,
ending the session and closing the connection. -/
theorem claim_C2_amended (alpha : ℚ) (orc : Oracle) (st : SessionState)
    (typ : Option String) :
    (typ ≠ some "ping" → typ ≠ some "reset" → typ ≠ some "recalibrate" →
      processMessage alpha orc st (Msg.text (TextContent.jsonObj typ)) =
        some (st, [])) ∧
    processMessage alpha orc st (Msg.text TextContent.badJson) = none ∧
    processMessage alpha orc st (Msg.text TextContent.nonObjectJson) = none := by
  refine ⟨fun h1 h2 h3 => ?_, rfl, rfl⟩
  simp only [processMessage]
  rw [if_neg h1, if_neg h2, if_neg h3]

/-- Witness for C2 (amended): an object with the unrecognized type
`"hello"` is ignored and the loop continues with the same state. -/
theorem claim_C2_witness :
    processMessage (1/2) orcZero initSession
      (Msg.text (TextContent.jsonObj (some "hello"))) = some (initSession, []) :=
  (claim_C2_amended (1/2) orcZero initSession (some "hello")).1
    (by decide) (by decide) (by decide)

/-! ### Claim C6 -/

/-- The session state after one 1-sample binary chunk from a fresh
session: one buffered sample, counter 1, still calibrating. -/
def stAfterOneSample : SessionState :=
  { initSession with buffer := [0], samplesSince := 1, calibrationStarted := true }

/-- Claim C6 counterexample: from the reachable state `stAfterOneSample`
(fresh session after one 1-sample chunk), a reset emits exactly one
`reset_ack` and restores analyzer, buffer and phase — but
`samples_since_last_process` keeps its value 1, so the resulting state is
not the session-start state (whose counter is 0). -/
theorem claim_C6_counterexample :
    processMessage (1/2) orcZero initSession (Msg.binary [0]) =
      some (stAfterOneSample, [OutMsg.calibratingMsg]) ∧
    processMessage (1/2) orcZero stAfterOneSample
        (Msg.text (TextContent.jsonObj (some "reset"))) =
      some ({ initSession with samplesSince := 1 }, [OutMsg.resetAck]) ∧
    ({ initSession with samplesSince := 1 } : SessionState) ≠ initSession := by
  refine ⟨?_, ?_, ?_⟩
  · simp [processMessage, initSession, stAfterOneSample, appendTrim, maxBuffer]
  · simp [processMessage, initSession, stAfterOneSample]
  · simp [initSession]

/-- Claim C6 (amended): a reset control message always yields exactly one
`reset_ack`, returns the phase to calibrating with the started-flag
cleared, restores the analyzer to its constructor state (smoothing zeros;
not converged; empty history; noise-floor RMS 0.01, squared `1/10000`;
intensity floor 30 dB) and empties the sample buffer; the
samples-since-last-process counter, however, is not cleared, so the
post-reset state equals the session-start state only when that counter was
already 0. -/
theorem claim_C6_amended (alpha : ℚ) (orc : Oracle) (st : SessionState) :
    processMessage alpha orc st (Msg.text (TextContent.jsonObj (some "reset"))) =
      some ({ analyzer := initAnalyzer, buffer := [],
              samplesSince := st.samplesSince,
              calibrating := true, calibrationStarted := false },
            [OutMsg.resetAck]) := by
  simp [processMessage]

/-! ### Claim C9 -/

/-- The rolling buffer is capped by the trim: after any append-and-trim
step its length is at most `maxBuffer`. -/
theorem appendTrim_length_le (buf chunk : List ℚ) :
    (appendTrim buf chunk).length ≤ maxBuffer := by
  unfold appendTrim
  split
  · rw [List.length_drop]
    omega
  · omega

/-- Every loop iteration preserves the buffer bound. -/
theorem processMessage_buffer_le (alpha : ℚ) (orc : Oracle) (st : SessionState)
    (m : Msg) (st2 : SessionState) (outs : List OutMsg)
    (h : processMessage alpha orc st m = some (st2, outs))
    (hb : st.buffer.length ≤ maxBuffer) : st2.buffer.length ≤ maxBuffer := by
  cases m with
  | binary samples =>
    simp only [processMessage] at h
    split_ifs at h <;>
      (injection h with hpair; injection hpair with hfst hsnd; subst hfst;
       exact appendTrim_length_le _ _)
  | text t =>
    cases t with
    | badJson => exact Option.noConfusion h
    | nonObjectJson => exact Option.noConfusion h
    | jsonObj typ =>
      simp only [processMessage] at h
      split_ifs at h <;>
        (injection h with hpair; injection hpair with hfst hsnd; subst hfst) <;>
        first
          | exact hb
          | exact Nat.zero_le _

/-- Running the loop over any message sequence preserves the buffer bound. -/
theorem processMessages_buffer_le (alpha : ℚ) :
    ∀ (msgs : List (Msg × Oracle)) (st st2 : SessionState),
      processMessages alpha st msgs = some st2 →
      st.buffer.length ≤ maxBuffer → st2.buffer.length ≤ maxBuffer := by
  intro msgs
  induction msgs with
  | nil =>
    intro st st2 h hb
    injection h with h1
    subst h1
    exact hb
  | cons p rest ih =>
    intro st st2 h hb
    obtain ⟨m, orc⟩ := p
    simp only [processMessages] at h
    cases hm : processMessage alpha orc st m with
    | none => rw [hm] at h; exact Option.noConfusion h
    | some q =>
      rw [hm] at h
      exact ih q.1 st2 h (processMessage_buffer_le alpha orc st m q.1 q.2
        (by rw [hm]) hb)

/-- Claim C9: after each append-and-trim step the rolling buffer holds at
most `0.2 * 16000 = 3200` samples, whatever the chunk sizes; consequently
a session started fresh keeps its buffer at 3200 samples or fewer after
processing any message sequence. -/
theorem claim_C9 :
    (∀ buf chunk : List ℚ, (appendTrim buf chunk).length ≤ 3200) ∧
    (∀ (alpha : ℚ) (msgs : List (Msg × Oracle)) (st2 : SessionState),
      processMessages alpha initSession msgs = some st2 →
      st2.buffer.length ≤ 3200) :=
  ⟨fun buf chunk => appendTrim_length_le buf chunk,
   fun alpha msgs st2 h =>
     processMessages_buffer_le alpha msgs initSession st2 h (Nat.zero_le _)⟩

/-- Witness for C9: a fresh session fed one 1-sample chunk ends with a
buffer of at most 3200 samples. -/
theorem claim_C9_witness :
    processMessages (1/2) initSession [(Msg.binary [0], orcZero)] =
      some stAfterOneSample ∧
    stAfterOneSample.buffer.length ≤ 3200 := by
  have h : processMessages (1/2) initSession [(Msg.binary [0], orcZero)] =
      some stAfterOneSample := by
    simp [processMessages, processMessage, initSession, stAfterOneSample,
      appendTrim, maxBuffer]
  exact ⟨h, claim_C9.2 (1/2) [(Msg.binary [0], orcZero)] stAfterOneSample h⟩

/-! ### Claim C4 -/

/-- Claim C4: frames shorter than 256 samples return `false` without
mutating any calibration state; for longer frames, ingesting returns
`true` (and marks the state calibrated) exactly when the updated stored
RMS history holds at least `capacity / 2 = 31 / 2 = 15` entries, and then
the stored noise floor equals the 90th-percentile entry (index
`int(0.9 * n)`) of a sorted permutation of the stored per-frame RMS
history (all RMS values represented by their squares). -/
theorem claim_C4 (st : AnalyzerState) (frame : List ℚ) (calIntensity : Option ℚ) :
    (frame.length < 256 → calibrate_noise_floor st frame calIntensity = (st, false)) ∧
    (¬ frame.length < 256 →
      (((calibrate_noise_floor st frame calIntensity).2 = true) ↔
        maxCalibrationSamples / 2 ≤
          (calibHistoryUpdate st.calibration_samples (meanSq frame)).length) ∧
      ((calibrate_noise_floor st frame calIntensity).2 = true →
        (calibrate_noise_floor st frame calIntensity).1.is_calibrated = true ∧
        (calibrate_noise_floor st frame calIntensity).1.calibration_samples =
          calibHistoryUpdate st.calibration_samples (meanSq frame) ∧
        ∃ s : List ℚ,
          s.Perm (calibHistoryUpdate st.calibration_samples (meanSq frame)) ∧
          s.Sorted (· ≤ ·) ∧
          (calibrate_noise_floor st frame calIntensity).1.noise_floor_rmsSq =
            s.getD (percentileIdx s.length) 0)) := by
  constructor
  · intro h
    unfold calibrate_noise_floor
    rw [if_pos h]
  · intro h1
    by_cases h2 : maxCalibrationSamples / 2 ≤
        (calibHistoryUpdate st.calibration_samples (meanSq frame)).length
    · refine ⟨?_, fun _ => ⟨?_, ?_, ?_⟩⟩
      · simp only [calibrate_noise_floor]
        rw [if_neg h1, if_pos h2]
        simp [h2]
      · simp only [calibrate_noise_floor]
        rw [if_neg h1, if_pos h2]
      · simp only [calibrate_noise_floor]
        rw [if_neg h1, if_pos h2]
      · refine ⟨(calibHistoryUpdate st.calibration_samples
            (meanSq frame)).insertionSort (· ≤ ·),
          List.perm_insertionSort _ _, List.sorted_insertionSort _ _, ?_⟩
        simp only [calibrate_noise_floor]
        rw [if_neg h1, if_pos h2, List.length_insertionSort]
    · refine ⟨?_, fun hcontra => ?_⟩
      · simp only [calibrate_noise_floor]
        rw [if_neg h1, if_neg h2]
        simp [h2]
      · simp only [calibrate_noise_floor] at hcontra
        rw [if_neg h1, if_neg h2] at hcontra
        simp at hcontra

/-- An analyzer state with 14 stored calibration RMS entries: one more
ambient frame reaches half the 31-entry capacity. -/
def stHist14 : AnalyzerState :=
  { initAnalyzer with calibration_samples := List.replicate 14 (0 : ℚ) }

/-- Witness for C4: a 255-sample frame is ignored; the 15th ambient frame
converges the calibration. -/
theorem claim_C4_witness :
    calibrate_noise_floor initAnalyzer (List.replicate 255 (0 : ℚ)) none =
      (initAnalyzer, false) ∧
    (calibrate_noise_floor stHist14 frameZeros none).2 = true := by
  constructor
  · exact (claim_C4 initAnalyzer (List.replicate 255 0) none).1 (by decide)
  · apply ((claim_C4 stHist14 frameZeros none).2 (by decide)).1.mpr
    rw [show meanSq frameZeros = 0 from meanSq_replicate_zero 256]
    simp [calibHistoryUpdate, stHist14, maxCalibrationSamples]

/-! ### Claim C5 -/

/-- Squared distances are nonnegative. -/
theorem distSq_nonneg (f1 f2 : ℚ) (e : String × ℚ × ℚ) : 0 ≤ distSq f1 f2 e := by
  unfold distSq
  positivity

/-- Scan step: a strictly smaller distance replaces the accumulator. -/
theorem scanVowels_cons_some_lt (f1 f2 : ℚ) (e : String × ℚ × ℚ)
    (rest : List (String × ℚ × ℚ)) (s0 : String) (d0 : ℚ)
    (h : distSq f1 f2 e < d0) :
    scanVowels f1 f2 (e :: rest) (some s0, some d0) =
      scanVowels f1 f2 rest (some e.1, some (distSq f1 f2 e)) := by
  simp [scanVowels, h]

/-- Scan step: a distance not strictly smaller keeps the accumulator
(first entry of a tie wins). -/
theorem scanVowels_cons_some_ge (f1 f2 : ℚ) (e : String × ℚ × ℚ)
    (rest : List (String × ℚ × ℚ)) (s0 : String) (d0 : ℚ)
    (h : ¬ distSq f1 f2 e < d0) :
    scanVowels f1 f2 (e :: rest) (some s0, some d0) =
      scanVowels f1 f2 rest (some s0, some d0) := by
  simp [scanVowels, h]

/-- Scan step: the first entry always beats the initial infinite distance. -/
theorem scanVowels_cons_none (f1 f2 : ℚ) (e : String × ℚ × ℚ)
    (rest : List (String × ℚ × ℚ)) :
    scanVowels f1 f2 (e :: rest) (none, none) =
      scanVowels f1 f2 rest (some e.1, some (distSq f1 f2 e)) := by
  simp [scanVowels]

/-- Invariant of the scan from a concrete accumulator: the result is the
accumulator itself (no entry strictly beats it) or the first entry
achieving the strict improvement chain: a split `l = l1 ++ e :: l2` where
the chosen entry `e` strictly beats everything before it and is a lower
bound for the whole list. -/
theorem scanVowels_go (f1 f2 : ℚ) :
    ∀ (l : List (String × ℚ × ℚ)) (s0 : String) (d0 : ℚ),
    ∃ s d, scanVowels f1 f2 l (some s0, some d0) = (some s, some d) ∧
      d ≤ d0 ∧ (∀ e ∈ l, d ≤ distSq f1 f2 e) ∧
      ((s = s0 ∧ d = d0) ∨
        ∃ l1 e l2, l = l1 ++ e :: l2 ∧ e.1 = s ∧ distSq f1 f2 e = d ∧ d < d0 ∧
          ∀ e2 ∈ l1, d < distSq f1 f2 e2) := by
  intro l
  induction l with
  | nil =>
    intro s0 d0
    refine ⟨s0, d0, rfl, le_refl d0, ?_, Or.inl ⟨rfl, rfl⟩⟩
    intro e he
    cases he
  | cons e rest ih =>
    intro s0 d0
    by_cases hlt : distSq f1 f2 e < d0
    · obtain ⟨s, d, heq, hle, hall, hcase⟩ := ih e.1 (distSq f1 f2 e)
      refine ⟨s, d, ?_, le_of_lt (lt_of_le_of_lt hle hlt), ?_, ?_⟩
      · rw [scanVowels_cons_some_lt f1 f2 e rest s0 d0 hlt]
        exact heq
      · intro e2 he2
        rcases List.mem_cons.mp he2 with rfl | hmem
        · exact hle
        · exact hall e2 hmem
      · right
        rcases hcase with ⟨hs, hd⟩ | ⟨l1, e2, l2, hsplit, hs, hd, hlt2, hpre⟩
        · refine ⟨[], e, rest, by simp, hs.symm, hd.symm, ?_, ?_⟩
          · rw [hd]
            exact hlt
          · intro x hx
            cases hx
        · refine ⟨e :: l1, e2, l2, by rw [hsplit, List.cons_append], hs, hd,
            lt_trans hlt2 hlt, ?_⟩
          intro e3 he3
          rcases List.mem_cons.mp he3 with rfl | hmem
          · exact hlt2
          · exact hpre e3 hmem
    · obtain ⟨s, d, heq, hle, hall, hcase⟩ := ih s0 d0
      have hge : d0 ≤ distSq f1 f2 e := not_lt.mp hlt
      refine ⟨s, d, ?_, hle, ?_, ?_⟩
      · rw [scanVowels_cons_some_ge f1 f2 e rest s0 d0 hlt]
        exact heq
      · intro e2 he2
        rcases List.mem_cons.mp he2 with rfl | hmem
        · exact le_trans hle hge
        · exact hall e2 hmem
      · rcases hcase with hl | ⟨l1, e2, l2, hsplit, hs, hd, hlt2, hpre⟩
        · exact Or.inl hl
        · refine Or.inr ⟨e :: l1, e2, l2, by rw [hsplit, List.cons_append], hs, hd,
            hlt2, ?_⟩
          intro e3 he3
          rcases List.mem_cons.mp he3 with rfl | hmem
          · exact lt_of_lt_of_le hlt2 hge
          · exact hpre e3 hmem

/-- The full scan of a nonempty table from the initial accumulator returns
the first entry achieving the minimal distance. -/
theorem scanVowels_spec (f1 f2 : ℚ) (e0 : String × ℚ × ℚ)
    (rest : List (String × ℚ × ℚ)) :
    ∃ s d l1 e l2,
      scanVowels f1 f2 (e0 :: rest) (none, none) = (some s, some d) ∧
      e0 :: rest = l1 ++ e :: l2 ∧ e.1 = s ∧ distSq f1 f2 e = d ∧
      (∀ e2 ∈ l1, d < distSq f1 f2 e2) ∧
      (∀ e2 ∈ e0 :: rest, d ≤ distSq f1 f2 e2) := by
  rw [scanVowels_cons_none]
  obtain ⟨s, d, heq, hle, hall, hcase⟩ := scanVowels_go f1 f2 rest e0.1 (distSq f1 f2 e0)
  rcases hcase with ⟨hs, hd⟩ | ⟨l1, e2, l2, hsplit, hs, hd, hlt2, hpre⟩
  · refine ⟨s, d, [], e0, rest, heq, rfl, hs.symm, hd.symm, ?_, ?_⟩
    · intro x hx
      cases hx
    · intro e2 he2
      rcases List.mem_cons.mp he2 with rfl | hmem
      · exact le_of_eq hd
      · exact hall e2 hmem
  · refine ⟨s, d, e0 :: l1, e2, l2, heq, by rw [hsplit, List.cons_append], hs, hd,
      ?_, ?_⟩
    · intro e3 he3
      rcases List.mem_cons.mp he3 with rfl | hmem
      · exact hlt2
      · exact hpre e3 hmem
    · intro e3 he3
      rcases List.mem_cons.mp he3 with rfl | hmem
      · exact le_of_lt hlt2
      · exact hall e3 hmem

/-- Evaluation of the classifier at the close front vowel's own
coordinates. -/
theorem detect_vowel_i : detect_vowel 280 2300 = (some "i", some 0) := by
  norm_num [detect_vowel, scanVowels, IPA_VOWELS, distSq]

/-- Claim C5: `_detect_vowel` returns `(None, 0)` (modelled `(none, none)`)
whenever either formant is 0; otherwise it returns the first table entry
minimizing the anisotropic distance `sqrt((1.2*(f1-t1))^2 + (0.8*(f2-t2))^2)`
— every entry strictly before the chosen one in declaration order is
strictly farther, and no entry is closer — with the confidence determined
by the minimal distance as `max(0, 1 - d/400)`; in particular `(280, 2300)`
classifies to the close front vowel `"i"` at distance 0, whose confidence
`max(0, 1 - sqrt(0)/400) = 1` is at least `0.9`. -/
theorem claim_C5 :
    (∀ f1 f2 : ℚ, (f1 = 0 ∨ f2 = 0) → detect_vowel f1 f2 = (none, none)) ∧
    (∀ f1 f2 : ℚ, f1 ≠ 0 → f2 ≠ 0 →
      ∃ s d l1 e l2,
        detect_vowel f1 f2 = (some s, some d) ∧
        IPA_VOWELS = l1 ++ e :: l2 ∧ e.1 = s ∧ distSq f1 f2 e = d ∧
        (∀ e2 ∈ l1, Real.sqrt (d : ℝ) < Real.sqrt ((distSq f1 f2 e2 : ℚ) : ℝ)) ∧
        (∀ e2 ∈ IPA_VOWELS,
          Real.sqrt (d : ℝ) ≤ Real.sqrt ((distSq f1 f2 e2 : ℚ) : ℝ))) ∧
    detect_vowel 280 2300 = (some "i", some 0) ∧
    (9/10 : ℝ) ≤
      max 0 (1 - Real.sqrt (((detect_vowel 280 2300).2.getD 0 : ℚ) : ℝ) / 400) := by
  refine ⟨?_, ?_, detect_vowel_i, ?_⟩
  · intro f1 f2 h
    unfold detect_vowel
    rw [if_pos h]
  · intro f1 f2 h1 h2
    have hne : ¬ (f1 = 0 ∨ f2 = 0) := not_or.mpr ⟨h1, h2⟩
    have hdet : detect_vowel f1 f2 = scanVowels f1 f2 IPA_VOWELS (none, none) := by
      unfold detect_vowel
      rw [if_neg hne]
    obtain ⟨s, d, l1, e, l2, heq, hsplit, hs, hd, hpre, hall⟩ :=
      scanVowels_spec f1 f2 ("i", 280, 2300)
        [("ɪ", 400, 2000), ("e", 400, 2100), ("ɛ", 550, 1900), ("æ", 700, 1700),
         ("a", 800, 1500), ("ɨ", 300, 1600), ("ə", 500, 1500), ("ɐ", 700, 1400),
         ("u", 300, 900), ("ʊ", 400, 1000), ("o", 450, 900), ("ɔ", 600, 1000),
         ("ɑ", 750, 1100)]
    have hnn : (0 : ℚ) ≤ d := hd ▸ distSq_nonneg f1 f2 e
    refine ⟨s, d, l1, e, l2, ?_, hsplit, hs, hd, ?_, ?_⟩
    · rw [hdet]
      exact heq
    · intro e2 he2
      apply Real.sqrt_lt_sqrt
      · exact_mod_cast hnn
      · exact_mod_cast hpre e2 he2
    · intro e2 he2
      apply Real.sqrt_le_sqrt
      exact_mod_cast hall e2 he2
  · rw [detect_vowel_i]
    norm_num

/-- Witness for C5: the zero-formant branch at `(0, 100)` and the
nonzero branch at `(430, 1570)` are both inhabited. -/
theorem claim_C5_witness :
    detect_vowel 0 100 = (none, none) ∧
    (∃ s d l1 e l2,
      detect_vowel 430 1570 = (some s, some d) ∧
      IPA_VOWELS = l1 ++ e :: l2 ∧ e.1 = s ∧ distSq 430 1570 e = d ∧
      (∀ e2 ∈ l1, Real.sqrt (d : ℝ) < Real.sqrt ((distSq 430 1570 e2 : ℚ) : ℝ)) ∧
      (∀ e2 ∈ IPA_VOWELS,
        Real.sqrt (d : ℝ) ≤ Real.sqrt ((distSq 430 1570 e2 : ℚ) : ℝ))) :=
  ⟨claim_C5.1 0 100 (Or.inl rfl),
   claim_C5.2.1 430 1570 (by norm_num) (by norm_num)⟩
